import Mathlib

/-!
Verification development for the PicoServoTester firmware
(src/main.py and src/rotary_irq_pico.py).

The firmware is a MicroPython program: a main menu loop, a settings menu
loop, a generic single-value editing loop (update_one_setting) and a servo
test loop (run_test), all polling two buttons and a rotary encoder counter.
We embed the pure state-evolution of these loops shallowly:

* hardware reads (button levels, the rotary counter r.value()) become
  explicit per-iteration inputs (structure PollInput and friends);
* hardware writes (relay level, PWM duty, display) become fields of the
  state records, holding the last value written;
* each Python while-loop becomes a structurally recursive function over
  the list of per-iteration inputs, returning some final state when the
  loop exits and none when the input list is exhausted while the loop is
  still running (or stuck inside a nested loop);
* Python ints are ℤ; the float expression of update_servo is idealized
  as exact rational arithmetic with Python int() truncation toward zero.
  Float rounding is not modeled: the idealized value can differ by one
  from the duty the program computes (e.g. at g_servo_min = 0,
  g_servo_max = 5700, g_percent = 29 the binary64 evaluation truncates
  to 1652 while the exact value is 1653, and the MicroPython rp2 port
  computes in binary32).  The theorems below therefore use the
  update_servo term only opaquely, or applied at g_percent = 50, where
  every binary floating-point evaluation of the expression is exact and
  agrees with the rational value;
* display and LED writes (oled.*, pwm_green, pwm_blue, pwm_power,
  led_onboard, show_* functions, the debug helper) have no effect on the
  quantities the theorems speak about and are omitted from the state,
  except that the ordering of actions inside each loop body is recorded
  separately by the Action lists below.
-/

namespace PicoServoTester

/-- Bounds constants, src/main.py lines 27-32. -/
def FREQUENCY_MIN : ℤ := 10

def FREQUENCY_MAX : ℤ := 200

def SERVO_MIN_MIN : ℤ := 0

def SERVO_MIN_MAX : ℤ := 5000

def SERVO_MAX_MIN : ℤ := 5001

def SERVO_MAX_MAX : ℤ := 10000

/-- Clamp a value within a range, inclusive of endpoints;
src/main.py lines 80-81: max(val_min, min(val, val_max)). -/
def clamp (val val_min val_max : ℤ) : ℤ :=
  max val_min (min val val_max)

/-- Python int() applied to a rational: truncation toward zero. -/
def pyInt (q : ℚ) : ℤ :=
  if q < 0 then ⌈q⌉ else ⌊q⌋

/-- update_servo, src/main.py lines 106-111:
fraction = g_percent / 100.0;
duty = int(g_servo_min + fraction * (g_servo_max - g_servo_min));
pwm_servo.duty_u16(duty).  The returned value is the duty written to the
servo PWM output, idealized over ℚ: the source evaluates the expression
in platform floating point, whose rounding can shift the truncated result
by one at some inputs, so this definition coincides with the program only
where the floating-point evaluation is exact (in particular at
g_percent = 50, the only point where the theorems below inspect it). -/
def update_servo (g_servo_min g_servo_max g_percent : ℤ) : ℤ :=
  pyInt ((g_servo_min : ℚ) + (g_percent : ℚ) / 100 * ((g_servo_max : ℚ) - (g_servo_min : ℚ)))

/-- One poll-loop iteration worth of hardware inputs: whether
button_pressed(button_yellow) and button_pressed(button_blue) report a
press this iteration, and the value returned by the r.value() read. -/
structure PollInput where
  yellow : Bool
  blue : Bool
  counter : ℤ
deriving DecidableEq

/-- The while-True loop of update_one_setting, src/main.py lines 192-208.
Arguments rOld and value are the loop-carried r_val_old and value
variables.  Yellow (cancel) returns original_value; blue (okay) returns
the current value; otherwise a changed counter applies
diff = r_val_old - r_val_new and clamps.  Returns none when the input
list is exhausted with the loop still running. -/
def updateOneSettingLoop (setting_min setting_max original_value : ℤ) :
    ℤ → ℤ → List PollInput → Option ℤ
  | _, _, [] => none
  | rOld, value, i :: rest =>
    if i.yellow then some original_value
    else if i.blue then some value
    else if rOld ≠ i.counter then
      updateOneSettingLoop setting_min setting_max original_value
        i.counter (clamp (value + (rOld - i.counter)) setting_min setting_max) rest
    else
      updateOneSettingLoop setting_min setting_max original_value rOld value rest

/-- update_one_setting, src/main.py lines 188-208: r_val_old = r.value()
(the rInit argument), value = original_value, then the poll loop. -/
def update_one_setting (setting_min setting_max original_value rInit : ℤ)
    (inputs : List PollInput) : Option ℤ :=
  updateOneSettingLoop setting_min setting_max original_value rInit original_value inputs

/-- The value trajectory of an editing session: the current value reached
by the sequence of clamped rotary edits (src/main.py lines 202-207)
over a run of iterations in which neither button is pressed. -/
def editTrajectory (setting_min setting_max : ℤ) :
    ℤ → ℤ → List PollInput → ℤ
  | _, value, [] => value
  | rOld, value, i :: rest =>
    if rOld ≠ i.counter then
      editTrajectory setting_min setting_max
        i.counter (clamp (value + (rOld - i.counter)) setting_min setting_max) rest
    else
      editTrajectory setting_min setting_max rOld value rest

/-- Saturation of g_percent applied after adding the rotary diff,
src/main.py lines 166-167:
if g_percent < 0: g_percent = 0; if g_percent > 100: g_percent = 100. -/
def clampPercent (p : ℤ) : ℤ :=
  if p < 0 then 0 else if p > 100 then 100 else p

/-- State of a run_test session (src/main.py lines 114-175).  relay holds
the argument of the last relay.value(_) write (the source comments call
relay.value(1) the disconnected state: lines 120-123).  duty holds the
last pwm_servo.duty_u16(_) write, freq the pwm_servo.freq(_) setting,
rOld the loop-carried r_val_old. -/
structure TestState where
  g_powered : Bool
  g_percent : ℤ
  relay : ℤ
  duty : ℤ
  freq : ℤ
  rOld : ℤ
deriving DecidableEq

/-- Entry code of run_test, src/main.py lines 114-132: pwm_servo.freq
(g_frequency); g_percent = 50; g_powered = False; relay.value(1);
show_test_details(); update_servo(); r_val_old = r.value(). -/
def runTestInit (g_frequency g_servo_min g_servo_max rInit : ℤ) : TestState :=
  { g_powered := false
    g_percent := 50
    relay := 1
    duty := update_servo g_servo_min g_servo_max 50
    freq := g_frequency
    rOld := rInit }

/-- One iteration of the run_test while-loop, src/main.py lines 134-171.
Returns the new state and the keep_going flag.  Yellow sets keep_going
false; blue toggles g_powered, drives the relay (0 when powered, 1 when
not) and rewrites the duty; a changed counter applies
diff = r_val_old - r_val_new to g_percent, saturates to [0,100] and
rewrites the duty. -/
def runTestStep (g_servo_min g_servo_max : ℤ) (s : TestState) (i : PollInput) :
    TestState × Bool :=
  let keep := !i.yellow
  let s1 :=
    if i.blue then
      let powered := !s.g_powered
      { s with g_powered := powered
               relay := if powered then 0 else 1
               duty := update_servo g_servo_min g_servo_max s.g_percent }
    else s
  let s2 :=
    if s1.rOld ≠ i.counter then
      let percent := clampPercent (s1.g_percent + (s1.rOld - i.counter))
      { s1 with rOld := i.counter
                g_percent := percent
                duty := update_servo g_servo_min g_servo_max percent }
    else s1
  (s2, keep)

/-- The run_test while-loop together with the exit code, src/main.py
lines 134-175: when keep_going goes false the function forces
g_powered = False and relay.value(1) before returning. -/
def runTestLoop (g_servo_min g_servo_max : ℤ) :
    TestState → List PollInput → Option TestState
  | _, [] => none
  | s, i :: rest =>
    let sk := runTestStep g_servo_min g_servo_max s i
    if sk.2 then runTestLoop g_servo_min g_servo_max sk.1 rest
    else some { sk.1 with g_powered := false, relay := 1 }

/-- run_test, src/main.py lines 114-175: entry code then the loop. -/
def run_test (g_frequency g_servo_min g_servo_max rInit : ℤ)
    (inputs : List PollInput) : Option TestState :=
  runTestLoop g_servo_min g_servo_max
    (runTestInit g_frequency g_servo_min g_servo_max rInit) inputs

/-- The three adjustable global settings, src/main.py lines 35-37. -/
structure Settings where
  g_frequency : ℤ
  g_servo_min : ℤ
  g_servo_max : ℤ
deriving DecidableEq

/-- Initial values for the globals, src/main.py lines 35-37:
g_frequency = 50; g_servo_min = 2500; g_servo_max = 8750. -/
def initialSettings : Settings :=
  { g_frequency := 50, g_servo_min := 2500, g_servo_max := 8750 }

/-- set_frequency, src/main.py lines 211-214: g_frequency =
update_one_setting("frequency", FREQUENCY_MIN, FREQUENCY_MAX,
g_frequency).  The r argument is the r.value() read at session entry and
inputs is the session poll script; none propagates a session that never
ended. -/
def set_frequency (st : Settings) (r : ℤ) (inputs : List PollInput) : Option Settings :=
  (update_one_setting FREQUENCY_MIN FREQUENCY_MAX st.g_frequency r inputs).map
    fun v => { st with g_frequency := v }

/-- set_min, src/main.py lines 217-220. -/
def set_min (st : Settings) (r : ℤ) (inputs : List PollInput) : Option Settings :=
  (update_one_setting SERVO_MIN_MIN SERVO_MIN_MAX st.g_servo_min r inputs).map
    fun v => { st with g_servo_min := v }

/-- set_max, src/main.py lines 223-226. -/
def set_max (st : Settings) (r : ℤ) (inputs : List PollInput) : Option Settings :=
  (update_one_setting SERVO_MAX_MIN SERVO_MAX_MAX st.g_servo_max r inputs).map
    fun v => { st with g_servo_max := v }

/-- Cursor update shared verbatim by the settings menu (src/main.py
line 273) and the main menu (line 330): which = clamp(which + diff, 0, 2)
where diff = r_val_old - r_val_new is passed as the diff argument. -/
def menuCursorUpdate (which diff : ℤ) : ℤ :=
  clamp (which + diff) 0 2

/-- The successive cursor values produced by a sequence of applied rotary
diffs, starting from cursor w (the source starts both menus at 0). -/
def cursorTrace (w : ℤ) : List ℤ → List ℤ
  | [] => [w]
  | d :: ds => w :: cursorTrace (menuCursorUpdate w d) ds

/-- One settings-menu iteration worth of inputs: the two button reads and
the counter read of the outer loop, plus, for the case where blue opens a
value-editing session, the r.value() read at session entry and the poll
script consumed by the session. -/
structure SettingsInput where
  yellow : Bool
  blue : Bool
  counter : ℤ
  rSession : ℤ
  session : List PollInput
deriving DecidableEq

/-- The settings() loop, src/main.py lines 245-274.  Per iteration:
yellow clears keep_going; blue runs set_frequency / set_min / set_max
according to the cursor (even in an iteration where yellow was also
pressed, as in the source); then a changed counter moves the cursor by
diff = r_val_old - r_val_new, clamped to [0,2].  Returns the settings on
exit, none when the script is exhausted while the loop (or a nested
session) is still running. -/
def settingsLoop : Settings → ℤ → ℤ → List SettingsInput → Option Settings
  | _, _, _, [] => none
  | st, which, rOld, i :: rest =>
    let keep := !i.yellow
    let st? : Option Settings :=
      if i.blue then
        if which = 0 then set_frequency st i.rSession i.session
        else if which = 1 then set_min st i.rSession i.session
        else set_max st i.rSession i.session
      else some st
    match st? with
    | none => none
    | some st1 =>
      let wr : ℤ × ℤ :=
        if rOld ≠ i.counter then (menuCursorUpdate which (rOld - i.counter), i.counter)
        else (which, rOld)
      if keep then settingsLoop st1 wr.1 wr.2 rest else some st1

/-- settings, src/main.py lines 245-274: which = 0, r_val_old = r.value()
(the r argument), then the loop. -/
def settings (st : Settings) (r : ℤ) (inputs : List SettingsInput) : Option Settings :=
  settingsLoop st 0 r inputs

/-- One main-menu iteration worth of inputs: the blue button and counter
reads of the outer loop, plus the entry counter reads and scripts of
whichever nested loop a blue press may open (settings at cursor 0,
run_test at cursor 1, the help screen at cursor 2; helpEnds records
whether the blocking help screen is eventually dismissed with yellow). -/
structure MainInput where
  blue : Bool
  counter : ℤ
  rSettings : ℤ
  settingsScript : List SettingsInput
  rTest : ℤ
  testScript : List PollInput
  helpEnds : Bool
deriving DecidableEq

/-- The main menu loop, src/main.py lines 296-331.  Per iteration: blue
dispatches on the cursor (settings(), run_test(), or the help screen,
which blocks until yellow); run_test and help never assign the settings
globals, so they return the settings unchanged when their script
terminates them; then a changed counter moves the cursor by
diff = r_val_old - r_val_new, clamped to [0,2].  The source loop never
exits; an exhausted script returns the settings reached, for observation,
and none means stuck inside a nested loop. -/
def mainLoop : Settings → ℤ → ℤ → List MainInput → Option Settings
  | st, _, _, [] => some st
  | st, which, rOld, i :: rest =>
    let st? : Option Settings :=
      if i.blue then
        if which = 0 then settings st i.rSettings i.settingsScript
        else if which = 1 then
          match run_test st.g_frequency st.g_servo_min st.g_servo_max i.rTest i.testScript with
          | none => none
          | some _ => some st
        else if i.helpEnds then some st else none
      else some st
    match st? with
    | none => none
    | some st1 =>
      if rOld ≠ i.counter then
        mainLoop st1 (menuCursorUpdate which (rOld - i.counter)) i.counter rest
      else
        mainLoop st1 which rOld rest

/-- The whole program after startup, src/main.py lines 293-331: the
globals start at their initial values, which = 0, r_val_old = r.value()
(the r argument), then the main menu loop. -/
def mainProgram (r : ℤ) (inputs : List MainInput) : Option Settings :=
  mainLoop initialSettings 0 r inputs

/-- The bounds the spec states for the settings fields. -/
def settingsInBounds (st : Settings) : Prop :=
  FREQUENCY_MIN ≤ st.g_frequency ∧ st.g_frequency ≤ FREQUENCY_MAX ∧
  SERVO_MIN_MIN ≤ st.g_servo_min ∧ st.g_servo_min ≤ SERVO_MIN_MAX ∧
  SERVO_MAX_MIN ≤ st.g_servo_max ∧ st.g_servo_max ≤ SERVO_MAX_MAX

instance (st : Settings) : Decidable (settingsInBounds st) := by
  unfold settingsInBounds; infer_instance

/-- Abstraction of the actions a loop body performs, in order, used to
record the shape of each polling loop (sleeps, button checks, rotary
counter read).  Display and LED writes are not recorded. -/
inductive Action where
  | sleepMs (n : ℕ)
  | checkYellow
  | checkBlue
  | readRotary
deriving DecidableEq

/-- Whether an action is a sleep. -/
def isSleep : Action → Bool
  | .sleepMs _ => true
  | _ => false

/-- Body shape of the main menu loop, src/main.py lines 299-331:
sleep_ms(50), then the blue (select) button check, then the rotary read.
The main menu loop has no yellow check of its own. -/
def mainLoopBody : List Action :=
  [Action.sleepMs 50, Action.checkBlue, Action.readRotary]

/-- Body shape of the settings() loop, src/main.py lines 251-274:
sleep_ms(50), yellow check, blue check, rotary read. -/
def settingsLoopBody : List Action :=
  [Action.sleepMs 50, Action.checkYellow, Action.checkBlue, Action.readRotary]

/-- Body shape of the run_test loop, src/main.py lines 134-171:
sleep_ms(50), yellow check, blue check, rotary read. -/
def runTestLoopBody : List Action :=
  [Action.sleepMs 50, Action.checkYellow, Action.checkBlue, Action.readRotary]

/-- Body shape of the update_one_setting loop, src/main.py lines 192-208:
yellow check, blue check, rotary read.  This loop contains no sleep_ms
call at all (the only sleeps reachable from it are inside button_pressed
while a button is held). -/
def updateOneSettingLoopBody : List Action :=
  [Action.checkYellow, Action.checkBlue, Action.readRotary]

/-! ## Helper lemmas (shared) -/

/-- clamp stays within [lo, hi] whenever lo ≤ hi. -/
theorem clamp_bounds (x lo hi : ℤ) (h : lo ≤ hi) :
    lo ≤ clamp x lo hi ∧ clamp x lo hi ≤ hi := by
  unfold clamp; omega

/-- Whenever the run_test loop exits, the trailing code has forced
g_powered = False and relay.value(1) (src/main.py lines 172-175). -/
theorem runTestLoop_exit (g_servo_min g_servo_max : ℤ) (sExit : TestState)
    (inputs : List PollInput) :
    ∀ s : TestState, runTestLoop g_servo_min g_servo_max s inputs = some sExit →
      sExit.relay = 1 ∧ sExit.g_powered = false := by
  induction inputs with
  | nil => intro s h; simp [runTestLoop] at h
  | cons i rest ih =>
    intro s h
    simp only [runTestLoop] at h
    split at h
    · exact ih _ h
    · injection h with h
      subst h
      exact ⟨rfl, rfl⟩

/-! ## Claims -/

/-- C5: for all integers value, delta, min, max with min ≤ max,
clamp(value+delta, min, max) lies in [min, max] and equals value+delta
whenever value+delta already lies in [min, max] (saturating, not
wrapping). -/
theorem c5_clamp_saturates (value delta val_min val_max : ℤ)
    (h : val_min ≤ val_max) :
    val_min ≤ clamp (value + delta) val_min val_max ∧
    clamp (value + delta) val_min val_max ≤ val_max ∧
    (val_min ≤ value + delta → value + delta ≤ val_max →
      clamp (value + delta) val_min val_max = value + delta) := by
  unfold clamp; omega

/-- Witness for C5 at value 3, delta 4, bounds [0, 10]. -/
theorem c5_witness :
    (0 : ℤ) ≤ clamp (3 + 4) 0 10 ∧ clamp (3 + 4) 0 10 ≤ 10 ∧
      ((0 : ℤ) ≤ 3 + 4 → (3 : ℤ) + 4 ≤ 10 → clamp (3 + 4) 0 10 = 3 + 4) :=
  c5_clamp_saturates 3 4 0 10 (by decide)

/-- C9 counterexample: the update_one_setting polling loop
(src/main.py lines 192-208) does not begin its iterations with the fixed
poll-interval sleep; its body contains no sleep at all, and its first
action is the cancel-button check. -/
theorem c9_counterexample :
    updateOneSettingLoopBody.head? ≠ some (Action.sleepMs 50) ∧
    updateOneSettingLoopBody.head? = some Action.checkYellow ∧
    updateOneSettingLoopBody.all (fun a => !(isSleep a)) = true := by
  decide

/-- C9 (amended): the main menu, settings menu and servo test loops each
begin every iteration with the fixed 50 ms sleep before the button checks
and the rotary read, but the value-editing loop (update_one_setting) has
no sleep of its own and begins directly with the cancel-button check. -/
theorem c9_poll_loop_shapes :
    mainLoopBody.head? = some (Action.sleepMs 50) ∧
    settingsLoopBody.head? = some (Action.sleepMs 50) ∧
    runTestLoopBody.head? = some (Action.sleepMs 50) ∧
    updateOneSettingLoopBody.head? = some Action.checkYellow ∧
    updateOneSettingLoopBody.all (fun a => !(isSleep a)) = true := by
  decide

/-- C4: for any sequence of applied rotary diffs, the menu cursor used by
both the main menu and the settings menu (which both update the cursor
with menuCursorUpdate) never leaves [0, 2]; each update equals the
previous cursor plus the diff, saturated to [0, 2] by clamp. -/
theorem c4_menu_cursor_saturates (w : ℤ) (hw0 : 0 ≤ w) (hw2 : w ≤ 2)
    (ds : List ℤ) :
    (∀ c ∈ cursorTrace w ds, 0 ≤ c ∧ c ≤ 2) ∧
    (∀ d, menuCursorUpdate w d = clamp (w + d) 0 2) := by
  refine ⟨?_, fun d => rfl⟩
  induction ds generalizing w with
  | nil =>
    intro c hc
    simp only [cursorTrace, List.mem_singleton] at hc
    subst hc
    exact ⟨hw0, hw2⟩
  | cons d ds ih =>
    intro c hc
    simp only [cursorTrace, List.mem_cons] at hc
    rcases hc with rfl | hc
    · exact ⟨hw0, hw2⟩
    · have hb := clamp_bounds (w + d) 0 2 (by decide)
      exact ih (menuCursorUpdate w d) hb.1 hb.2 c hc

/-- Witness for C4: starting at cursor 0, after the diffs [-5, 100, 1]
(a large negative jump, a large positive jump, a step) the trace is
[0, 0, 2, 2]; its last entry 2 is in range, and one concrete update. -/
theorem c4_witness :
    ((0 : ℤ) ≤ 2 ∧ (2 : ℤ) ≤ 2) ∧ menuCursorUpdate 0 7 = clamp (0 + 7) 0 2 := by
  have h := c4_menu_cursor_saturates 0 (by decide) (by decide) [-5, 100, 1]
  exact ⟨h.1 2 (by decide), h.2 7⟩

/-- C10: if the confirm (blue) button is pressed before any change of the
encoder counter has been observed, update_one_setting returns
original_value itself — never clamped, even when original_value lies
outside [setting_min, setting_max]; clamping only ever applies to values
produced by rotary edits. -/
theorem c10_confirm_before_rotation
    (setting_min setting_max original_value rInit : ℤ)
    (pre : List PollInput) (i : PollInput) (rest : List PollInput)
    (hpre : ∀ j ∈ pre, j.yellow = false ∧ j.blue = false ∧ j.counter = rInit)
    (hy : i.yellow = false) (hb : i.blue = true) :
    update_one_setting setting_min setting_max original_value rInit
      (pre ++ i :: rest) = some original_value := by
  unfold update_one_setting
  induction pre with
  | nil => simp [updateOneSettingLoop, hy, hb]
  | cons j pre ih =>
    obtain ⟨hjy, hjb, hjc⟩ := hpre j (by simp)
    simp only [List.cons_append, updateOneSettingLoop, hjy, hjb, hjc,
      Bool.false_eq_true, if_false, ne_eq, not_true_eq_false]
    simpa using ih fun k hk => hpre k (by simp [hk])

/-- Witness for C10: with bounds [0, 100] and the out-of-range initial
value 999, one buttonless iteration with the counter still at its entry
value 5 followed by a confirm press returns 999 unclamped. -/
theorem c10_witness :
    ¬((0 : ℤ) ≤ 999 ∧ (999 : ℤ) ≤ 100) ∧
    update_one_setting 0 100 999 5
      [⟨false, false, 5⟩, ⟨false, true, 5⟩] = some 999 := by
  refine ⟨by decide, ?_⟩
  have h := c10_confirm_before_rotation 0 100 999 5
    [⟨false, false, 5⟩] ⟨false, true, 5⟩ [] (by decide) rfl rfl
  exact h

/-- In a run of buttonless iterations followed by a button press, the
update_one_setting loop returns original_value on yellow and the value
trajectory of the clamped rotary edits on blue. -/
theorem updateOneSettingLoop_buttonless (setting_min setting_max original_value : ℤ)
    (i : PollInput) (rest : List PollInput)
    (hpress : i.yellow = true ∨ i.blue = true) :
    ∀ pre : List PollInput, (∀ j ∈ pre, j.yellow = false ∧ j.blue = false) →
    ∀ rOld value : ℤ,
    updateOneSettingLoop setting_min setting_max original_value rOld value
        (pre ++ i :: rest) =
      if i.yellow then some original_value
      else some (editTrajectory setting_min setting_max rOld value pre) := by
  intro pre
  induction pre with
  | nil =>
    intro _ rOld value
    rcases hpress with hy | hb
    · simp [updateOneSettingLoop, hy]
    · cases hyv : i.yellow
      · simp [updateOneSettingLoop, editTrajectory, hyv, hb]
      · simp [updateOneSettingLoop, hyv]
  | cons j pre ih =>
    intro hpre rOld value
    obtain ⟨hjy, hjb⟩ := hpre j (by simp)
    have hrest : ∀ k ∈ pre, k.yellow = false ∧ k.blue = false :=
      fun k hk => hpre k (by simp [hk])
    by_cases hc : rOld ≠ j.counter
    · simp only [List.cons_append, updateOneSettingLoop, editTrajectory, hjy, hjb,
        Bool.false_eq_true, if_false, if_pos hc]
      exact ih hrest _ _
    · simp only [List.cons_append, updateOneSettingLoop, editTrajectory, hjy, hjb,
        Bool.false_eq_true, if_false, if_neg hc]
      exact ih hrest _ _

/-- C3: for every editing session (update_one_setting) consisting of
buttonless iterations followed by a button press, ending with confirm
(blue) returns the current value reached by the sequence of clamped
rotary edits, while ending with cancel (yellow) returns exactly
original_value, discarding all intermediate edits — so the corresponding
Settings field (shown for set_frequency) is unchanged by a cancelled
edit. -/
theorem c3_confirm_current_cancel_initial
    (setting_min setting_max original_value rInit : ℤ)
    (pre : List PollInput) (i : PollInput) (rest : List PollInput)
    (hpre : ∀ j ∈ pre, j.yellow = false ∧ j.blue = false) :
    (i.yellow = true →
      update_one_setting setting_min setting_max original_value rInit
        (pre ++ i :: rest) = some original_value) ∧
    (i.yellow = false → i.blue = true →
      update_one_setting setting_min setting_max original_value rInit
        (pre ++ i :: rest) =
        some (editTrajectory setting_min setting_max rInit original_value pre)) ∧
    (∀ st : Settings, i.yellow = true →
      set_frequency st rInit (pre ++ i :: rest) = some st) := by
  refine ⟨fun hy => ?_, fun hy hb => ?_, fun st hy => ?_⟩
  · unfold update_one_setting
    rw [updateOneSettingLoop_buttonless setting_min setting_max original_value i rest
      (Or.inl hy) pre hpre rInit original_value]
    simp [hy]
  · unfold update_one_setting
    rw [updateOneSettingLoop_buttonless setting_min setting_max original_value i rest
      (Or.inr hb) pre hpre rInit original_value]
    simp [hy]
  · obtain ⟨a, b, c⟩ := st
    unfold set_frequency update_one_setting
    rw [updateOneSettingLoop_buttonless FREQUENCY_MIN FREQUENCY_MAX a i rest
      (Or.inl hy) pre hpre rInit a]
    simp [hy]

/-- Witness for C3: with bounds [0, 100], initial value 50, entry counter
0, one buttonless iteration moving the counter to 1 (clamped edit to 49):
confirm returns the trajectory value, cancel returns 50, and a cancelled
set_frequency session leaves the settings record unchanged. -/
theorem c3_witness :
    update_one_setting 0 100 50 0 [⟨false, false, 1⟩, ⟨false, true, 1⟩] =
      some (editTrajectory 0 100 0 50 [⟨false, false, 1⟩]) ∧
    update_one_setting 0 100 50 0 [⟨false, false, 1⟩, ⟨true, false, 1⟩] =
      some 50 ∧
    set_frequency initialSettings 0 [⟨false, false, 1⟩, ⟨true, false, 1⟩] =
      some initialSettings := by
  have h1 := c3_confirm_current_cancel_initial 0 100 50 0
    [⟨false, false, 1⟩] ⟨false, true, 1⟩ [] (by decide)
  have h2 := c3_confirm_current_cancel_initial 0 100 50 0
    [⟨false, false, 1⟩] ⟨true, false, 1⟩ [] (by decide)
  exact ⟨h1.2.1 rfl rfl, h2.1 rfl, h2.2.2 initialSettings rfl⟩

/-- C2 counterexample: with bounds [0, 100], value 50, entry counter 0,
the counter moving to 1 (net +1 in counter terms) followed by a confirm
press: the claim predicts the returned value 50 + (1 - 0) = 51, but the
code computes diff = r_val_old - r_val_new and returns 50 + (0 - 1) = 49. -/
theorem c2_counterexample :
    update_one_setting 0 100 50 0 [⟨false, false, 1⟩, ⟨false, true, 1⟩] ≠
      some (50 + (1 - 0)) ∧
    update_one_setting 0 100 50 0 [⟨false, false, 1⟩, ⟨false, true, 1⟩] =
      some (50 + (0 - 1)) := by
  decide

/-- C2 (amended): in every poll loop (value editing, servo test, settings
menu, main menu) the rotary delta applied to the selected quantity equals
the previously observed counter value minus the newly read one —
r_val_old - r_val_new, the negation of the claimed new-minus-old — so the
quantity changes by the net number of steps in the direction opposite to
the counter. -/
theorem c2_applied_delta_old_minus_new
    (setting_min setting_max original_value value rOld : ℤ)
    (i : PollInput) (rest : List PollInput)
    (g_servo_min g_servo_max : ℤ) (s : TestState)
    (st : Settings) (w r : ℤ) (si : SettingsInput) (srest : List SettingsInput)
    (mi : MainInput) (mrest : List MainInput) :
    (i.yellow = false → i.blue = false → rOld ≠ i.counter →
      updateOneSettingLoop setting_min setting_max original_value rOld value
          (i :: rest) =
        updateOneSettingLoop setting_min setting_max original_value i.counter
          (clamp (value + (rOld - i.counter)) setting_min setting_max) rest) ∧
    (i.blue = false → s.rOld ≠ i.counter →
      (runTestStep g_servo_min g_servo_max s i).1.g_percent =
        clampPercent (s.g_percent + (s.rOld - i.counter))) ∧
    (si.yellow = false → si.blue = false → r ≠ si.counter →
      settingsLoop st w r (si :: srest) =
        settingsLoop st (menuCursorUpdate w (r - si.counter)) si.counter srest) ∧
    (mi.blue = false → r ≠ mi.counter →
      mainLoop st w r (mi :: mrest) =
        mainLoop st (menuCursorUpdate w (r - mi.counter)) mi.counter mrest) := by
  refine ⟨fun hy hb hc => ?_, fun hb hc => ?_, fun hy hb hc => ?_, fun hb hc => ?_⟩
  · simp [updateOneSettingLoop, hy, hb, hc]
  · simp [runTestStep, hb, hc]
  · simp [settingsLoop, hy, hb, hc]
  · simp [mainLoop, hb, hc]

/-- Witness for C2 (amended): counter moving 0 → 1 applies delta -1 in
all four loops (edited value 50 → 49, test percent 50 → 49, menu cursors
move by menuCursorUpdate with diff 0 - 1). -/
theorem c2_witness :
    (updateOneSettingLoop 0 100 50 0 50 [⟨false, false, 1⟩] =
      updateOneSettingLoop 0 100 50 1 (clamp (50 + (0 - 1)) 0 100) []) ∧
    (runTestStep 2500 8750 (runTestInit 50 2500 8750 0) ⟨false, false, 1⟩).1.g_percent
      = 49 ∧
    (settingsLoop initialSettings 0 0 [⟨false, false, 1, 0, []⟩] =
      settingsLoop initialSettings (menuCursorUpdate 0 (0 - 1)) 1 []) ∧
    (mainLoop initialSettings 0 0 [⟨false, 1, 0, [], 0, [], true⟩] =
      mainLoop initialSettings (menuCursorUpdate 0 (0 - 1)) 1 []) := by
  have h := c2_applied_delta_old_minus_new 0 100 50 50 0 ⟨false, false, 1⟩ []
    2500 8750 (runTestInit 50 2500 8750 0) initialSettings 0 0
    ⟨false, false, 1, 0, []⟩ [] ⟨false, 1, 0, [], 0, [], true⟩ []
  refine ⟨h.1 rfl rfl (by decide), ?_, h.2.2.1 rfl rfl (by decide),
    h.2.2.2 rfl (by decide)⟩
  exact (h.2.1 rfl (by decide)).trans (by decide)

/-- C1 counterexample: on entry to run_test the servo is unpowered
(g_powered = False) yet the relay line is driven with relay.value(1) —
high, not low — so the relay convention is not active-low-disconnect. -/
theorem c1_counterexample :
    (runTestInit 50 2500 8750 0).g_powered = false ∧
    (runTestInit 50 2500 8750 0).relay = 1 ∧ (1 : ℤ) ≠ 0 := by
  refine ⟨rfl, rfl, by decide⟩

/-- C1 (amended): the relay output follows an active-HIGH-disconnect
convention: whenever the servo is unpowered (on entry to run_test, after
a power-off toggle, and on exit) the relay line is driven high
(relay.value(1) = disconnected), and when g_powered is true it is driven
low (relay.value(0) = connected); the invariant
relay = (if powered then 0 else 1) is preserved by every loop iteration. -/
theorem c1_relay_active_high_disconnect
    (g_frequency g_servo_min g_servo_max rInit : ℤ) (s : TestState)
    (i : PollInput) (inputs : List PollInput) (sExit : TestState) :
    ((runTestInit g_frequency g_servo_min g_servo_max rInit).relay = 1 ∧
      (runTestInit g_frequency g_servo_min g_servo_max rInit).g_powered = false) ∧
    (i.blue = true →
      (runTestStep g_servo_min g_servo_max s i).1.relay =
        if s.g_powered then 1 else 0) ∧
    (s.relay = (if s.g_powered then 0 else 1) →
      (runTestStep g_servo_min g_servo_max s i).1.relay =
        (if (runTestStep g_servo_min g_servo_max s i).1.g_powered then 0 else 1)) ∧
    (run_test g_frequency g_servo_min g_servo_max rInit inputs = some sExit →
      sExit.relay = 1 ∧ sExit.g_powered = false) := by
  refine ⟨⟨rfl, rfl⟩, fun hb => ?_, fun hinv => ?_, fun h => ?_⟩
  · cases hp : s.g_powered <;>
      simp [runTestStep, hb, hp] <;> split <;> rfl
  · cases hb : i.blue <;> cases hp : s.g_powered <;>
      simp_all [runTestStep] <;> split <;> simp_all
  · exact runTestLoop_exit g_servo_min g_servo_max sExit inputs _ h

/-- Witness for C1: a power-off toggle from a powered state drives the
relay high; the invariant step holds there; a session ended immediately
by the cancel button exits with g_powered false and the relay high. -/
theorem c1_witness :
    ((runTestInit 50 2500 8750 0).relay = 1 ∧
      (runTestInit 50 2500 8750 0).g_powered = false) ∧
    (runTestStep 2500 8750 ⟨true, 50, 0, 5625, 50, 0⟩ ⟨false, true, 0⟩).1.relay = 1 ∧
    (runTestStep 2500 8750 ⟨true, 50, 0, 5625, 50, 0⟩ ⟨false, true, 0⟩).1.relay =
      (if (runTestStep 2500 8750 ⟨true, 50, 0, 5625, 50, 0⟩
            ⟨false, true, 0⟩).1.g_powered then 0 else 1) ∧
    ((⟨false, 50, 1, update_servo 2500 8750 50, 50, 0⟩ : TestState).relay = 1 ∧
      (⟨false, 50, 1, update_servo 2500 8750 50, 50, 0⟩ : TestState).g_powered
        = false) := by
  have h := c1_relay_active_high_disconnect 50 2500 8750 0
    ⟨true, 50, 0, 5625, 50, 0⟩ ⟨false, true, 0⟩ [⟨true, false, 0⟩]
    ⟨false, 50, 1, update_servo 2500 8750 50, 50, 0⟩
  exact ⟨h.1, (h.2.1 rfl).trans (by decide), h.2.2.1 (by decide), h.2.2.2 rfl⟩

/-- C6: every entry to run_test resets the session to g_powered = false
and g_percent = 50, drives the relay to its disconnected level
(relay.value(1)), configures the servo PWM frequency from g_frequency
(and writes the initial duty); every exit — which happens only via the
cancel (yellow) button — forces g_powered = false and the relay
disconnected before returning. -/
theorem c6_entry_reset_exit_unpowered
    (g_frequency g_servo_min g_servo_max rInit : ℤ)
    (inputs : List PollInput) (sExit : TestState) :
    (runTestInit g_frequency g_servo_min g_servo_max rInit).g_powered = false ∧
    (runTestInit g_frequency g_servo_min g_servo_max rInit).g_percent = 50 ∧
    (runTestInit g_frequency g_servo_min g_servo_max rInit).relay = 1 ∧
    (runTestInit g_frequency g_servo_min g_servo_max rInit).freq = g_frequency ∧
    (runTestInit g_frequency g_servo_min g_servo_max rInit).duty =
      update_servo g_servo_min g_servo_max 50 ∧
    (run_test g_frequency g_servo_min g_servo_max rInit inputs = some sExit →
      sExit.g_powered = false ∧ sExit.relay = 1) := by
  refine ⟨rfl, rfl, rfl, rfl, rfl, fun h => ?_⟩
  have := runTestLoop_exit g_servo_min g_servo_max sExit inputs _ h
  exact ⟨this.2, this.1⟩

/-- Witness for C6: entry state at frequency 50, range [2500, 8750],
counter 0, and an immediately cancelled session. -/
theorem c6_witness :
    (runTestInit 50 2500 8750 0).g_powered = false ∧
    (runTestInit 50 2500 8750 0).g_percent = 50 ∧
    (runTestInit 50 2500 8750 0).relay = 1 ∧
    (runTestInit 50 2500 8750 0).freq = 50 ∧
    (runTestInit 50 2500 8750 0).duty = update_servo 2500 8750 50 ∧
    ((⟨false, 50, 1, update_servo 2500 8750 50, 50, 0⟩ : TestState).g_powered
        = false ∧
      (⟨false, 50, 1, update_servo 2500 8750 50, 50, 0⟩ : TestState).relay = 1) := by
  have h := c6_entry_reset_exit_unpowered 50 2500 8750 0 [⟨true, false, 0⟩]
    ⟨false, 50, 1, update_servo 2500 8750 50, 50, 0⟩
  exact ⟨h.1, h.2.1, h.2.2.1, h.2.2.2.1, h.2.2.2.2.1, h.2.2.2.2.2 rfl⟩

/-- The value carried by the update_one_setting loop is either still the
original value or lies within [setting_min, setting_max]; any returned
value therefore does too. -/
theorem updateOneSettingLoop_bounds (setting_min setting_max original_value : ℤ)
    (hlh : setting_min ≤ setting_max) (inputs : List PollInput) :
    ∀ rOld value v : ℤ,
      (value = original_value ∨ (setting_min ≤ value ∧ value ≤ setting_max)) →
      updateOneSettingLoop setting_min setting_max original_value rOld value
        inputs = some v →
      v = original_value ∨ (setting_min ≤ v ∧ v ≤ setting_max) := by
  induction inputs with
  | nil => intro rOld value v _ h; simp [updateOneSettingLoop] at h
  | cons i rest ih =>
    intro rOld value v hval h
    simp only [updateOneSettingLoop] at h
    by_cases hy : i.yellow = true
    · rw [if_pos hy] at h
      injection h with h
      exact Or.inl h.symm
    · rw [if_neg hy] at h
      by_cases hb : i.blue = true
      · rw [if_pos hb] at h
        injection h with h
        subst h
        exact hval
      · rw [if_neg hb] at h
        by_cases hc : rOld ≠ i.counter
        · rw [if_pos hc] at h
          exact ih _ _ _
            (Or.inr (clamp_bounds (value + (rOld - i.counter)) _ _ hlh)) h
        · rw [if_neg hc] at h
          exact ih _ _ _ hval h

/-- A terminated editing session returns the original value or a value
within bounds. -/
theorem update_one_setting_bounds (setting_min setting_max original_value rInit v : ℤ)
    (hlh : setting_min ≤ setting_max) (inputs : List PollInput)
    (h : update_one_setting setting_min setting_max original_value rInit inputs
      = some v) :
    v = original_value ∨ (setting_min ≤ v ∧ v ≤ setting_max) :=
  updateOneSettingLoop_bounds setting_min setting_max original_value hlh inputs
    rInit original_value v (Or.inl rfl) h

/-- set_frequency preserves the settings bounds. -/
theorem set_frequency_bounds (st st1 : Settings) (r : ℤ) (inputs : List PollInput)
    (hst : settingsInBounds st) (h : set_frequency st r inputs = some st1) :
    settingsInBounds st1 := by
  unfold set_frequency at h
  obtain ⟨v, hv, rfl⟩ := Option.map_eq_some'.mp h
  have hb := update_one_setting_bounds FREQUENCY_MIN FREQUENCY_MAX
    st.g_frequency r v (by decide) inputs hv
  unfold settingsInBounds at hst ⊢
  rcases hb with rfl | hb
  · exact hst
  · exact ⟨hb.1, hb.2, hst.2.2⟩

/-- set_min preserves the settings bounds. -/
theorem set_min_bounds (st st1 : Settings) (r : ℤ) (inputs : List PollInput)
    (hst : settingsInBounds st) (h : set_min st r inputs = some st1) :
    settingsInBounds st1 := by
  unfold set_min at h
  obtain ⟨v, hv, rfl⟩ := Option.map_eq_some'.mp h
  have hb := update_one_setting_bounds SERVO_MIN_MIN SERVO_MIN_MAX
    st.g_servo_min r v (by decide) inputs hv
  unfold settingsInBounds at hst ⊢
  rcases hb with rfl | hb
  · exact hst
  · exact ⟨hst.1, hst.2.1, hb.1, hb.2, hst.2.2.2.2⟩

/-- set_max preserves the settings bounds. -/
theorem set_max_bounds (st st1 : Settings) (r : ℤ) (inputs : List PollInput)
    (hst : settingsInBounds st) (h : set_max st r inputs = some st1) :
    settingsInBounds st1 := by
  unfold set_max at h
  obtain ⟨v, hv, rfl⟩ := Option.map_eq_some'.mp h
  have hb := update_one_setting_bounds SERVO_MAX_MIN SERVO_MAX_MAX
    st.g_servo_max r v (by decide) inputs hv
  unfold settingsInBounds at hst ⊢
  rcases hb with rfl | hb
  · exact hst
  · exact ⟨hst.1, hst.2.1, hst.2.2.1, hst.2.2.2.1, hb.1, hb.2⟩

/-- The blue-press dispatch of the settings menu preserves the bounds. -/
theorem settingsDispatch_bounds (st st2 : Settings) (w : ℤ) (i : SettingsInput)
    (hst : settingsInBounds st)
    (hq : (if w = 0 then set_frequency st i.rSession i.session
           else if w = 1 then set_min st i.rSession i.session
           else set_max st i.rSession i.session) = some st2) :
    settingsInBounds st2 := by
  by_cases h0 : w = 0
  · rw [if_pos h0] at hq
    exact set_frequency_bounds st st2 i.rSession i.session hst hq
  · rw [if_neg h0] at hq
    by_cases h1 : w = 1
    · rw [if_pos h1] at hq
      exact set_min_bounds st st2 i.rSession i.session hst hq
    · rw [if_neg h1] at hq
      exact set_max_bounds st st2 i.rSession i.session hst hq

/-- The settings menu loop preserves the bounds of the settings record. -/
theorem settingsLoop_bounds (script : List SettingsInput) :
    ∀ (st : Settings) (w r : ℤ) (st1 : Settings), settingsInBounds st →
      settingsLoop st w r script = some st1 → settingsInBounds st1 := by
  induction script with
  | nil => intro st w r st1 _ h; simp [settingsLoop] at h
  | cons i rest ih =>
    intro st w r st1 hst h
    simp only [settingsLoop] at h
    by_cases hb : i.blue = true
    · rw [if_pos hb] at h
      cases hq : (if w = 0 then set_frequency st i.rSession i.session
          else if w = 1 then set_min st i.rSession i.session
          else set_max st i.rSession i.session) with
      | none => rw [hq] at h; simp at h
      | some st2 =>
        rw [hq] at h
        simp only at h
        have hst2 := settingsDispatch_bounds st st2 w i hst hq
        by_cases hy : i.yellow = true
        · simp only [hy, Bool.not_true, Bool.false_eq_true, if_false] at h
          injection h with h
          subst h
          exact hst2
        · rw [Bool.not_eq_true] at hy
          simp only [hy, Bool.not_false, if_true] at h
          exact ih st2 _ _ st1 hst2 h
    · rw [if_neg hb] at h
      simp only at h
      by_cases hy : i.yellow = true
      · simp only [hy, Bool.not_true, Bool.false_eq_true, if_false] at h
        injection h with h
        subst h
        exact hst
      · rw [Bool.not_eq_true] at hy
        simp only [hy, Bool.not_false, if_true] at h
        exact ih st _ _ st1 hst h

/-- The main menu loop preserves the bounds of the settings record: the
nested settings menu preserves them, and run_test and the help screen
never assign the settings globals. -/
theorem mainLoop_bounds (script : List MainInput) :
    ∀ (st : Settings) (w r : ℤ) (st1 : Settings), settingsInBounds st →
      mainLoop st w r script = some st1 → settingsInBounds st1 := by
  induction script with
  | nil =>
    intro st w r st1 hst h
    simp only [mainLoop] at h
    injection h with h
    subst h
    exact hst
  | cons i rest ih =>
    intro st w r st1 hst h
    simp only [mainLoop] at h
    by_cases hb : i.blue = true
    · rw [if_pos hb] at h
      by_cases h0 : w = 0
      · rw [if_pos h0] at h
        cases hq : settings st i.rSettings i.settingsScript with
        | none => rw [hq] at h; simp at h
        | some st2 =>
          rw [hq] at h
          simp only at h
          have hst2 := settingsLoop_bounds i.settingsScript st 0 i.rSettings st2
            hst hq
          split at h <;> exact ih st2 _ _ st1 hst2 h
      · rw [if_neg h0] at h
        by_cases h1 : w = 1
        · rw [if_pos h1] at h
          cases hq : run_test st.g_frequency st.g_servo_min st.g_servo_max
              i.rTest i.testScript with
          | none => rw [hq] at h; simp at h
          | some s =>
            rw [hq] at h
            simp only at h
            split at h <;> exact ih st _ _ st1 hst h
        · rw [if_neg h1] at h
          by_cases hh : i.helpEnds = true
          · rw [if_pos hh] at h
            simp only at h
            split at h <;> exact ih st _ _ st1 hst h
          · rw [if_neg hh] at h
            simp at h
    · rw [if_neg hb] at h
      simp only at h
      split at h <;> exact ih st _ _ st1 hst h

/-- C8: the settings globals are created at startup with
(g_frequency, g_servo_min, g_servo_max) = (50, 2500, 8750), and after
any sequence of menu navigation and edit sessions observed through the
main program loop they remain within their bounds: g_frequency in
[10, 200], g_servo_min in [0, 5000], g_servo_max in [5001, 10000].
Each field is reassigned only with the returned value of its own
editing session (set_frequency, set_min, set_max). -/
theorem c8_settings_defaults_and_bounds (r : ℤ) (script : List MainInput)
    (st : Settings) (h : mainProgram r script = some st) :
    initialSettings = ⟨50, 2500, 8750⟩ ∧ settingsInBounds st :=
  ⟨rfl, mainLoop_bounds script initialSettings 0 r st (by decide) h⟩

/-- Witness for C8: the empty script observes the startup settings, which
satisfy the bounds. -/
theorem c8_witness :
    initialSettings = ⟨50, 2500, 8750⟩ ∧ settingsInBounds initialSettings :=
  c8_settings_defaults_and_bounds 0 [] initialSettings rfl

end PicoServoTester
